import Mathlib

/-
Verification of the Atom solver (src/Atom/atom.hpp) against its design
specification.

The C++ source is a header-only template library (`template<typename Integer,
typename Real, typename Vector>`), so the embedding is likewise generic over
an ordered field `R` standing for `Real` and uses `Int` for `Integer`.
External collaborators are kept opaque, exactly as the source consumes them:

* the GSL multiroot machinery (`gsl_multiroot_fsolver_hybrids`) is represented
  by an abstract solver state plus opaque `gslSet` / `gslIterate` functions;
  only `gsl_multiroot_test_delta`, whose behaviour the solver's convergence
  policy depends on, is modelled concretely from the GSL reference semantics;
* `convertCartesianStateToTwoLineElements` (declared in a repository header
  that is not part of the sources under verification) and the SGP4 propagation
  step are opaque fallible functions; a failure value models a thrown C++
  exception, since the call sites return plain values and check no status.
-/

/-- GSL status code `GSL_SUCCESS` (gsl_errno.h). -/
def GSL_SUCCESS : Int := 0

/-- GSL status code `GSL_CONTINUE` (gsl_errno.h): iteration has not converged. -/
def GSL_CONTINUE : Int := -2

/-- GSL status code `GSL_EBADTOL` (gsl_errno.h): user specified an invalid tolerance. -/
def GSL_EBADTOL : Int := 13

/-- A 3-component Cartesian vector, the `Vector` template parameter restricted
to the three components the solver reads and writes (`[0]`, `[1]`, `[2]`). -/
structure Vec3 (R : Type) where
  x : R
  y : R
  z : R
deriving DecidableEq

/-- A 6-component Cartesian state: components `0..2` are the position and
components `3..5` the velocity, matching how `executeAtomSolver` and
`computeAtomResiduals` assemble `departureState`. -/
structure Cartesian6 (R : Type) where
  pos : Vec3 R
  vel : Vec3 R
deriving DecidableEq

/-- State of the GSL multiroot solver visible to the Atom solver: the current
iterate `x` (`solver->x`), the last step `dx` (`solver->dx`), the current
residual `f` (`solver->f`), and an opaque internal workspace of type `W`
(the hybrids method data, never inspected by the Atom solver). -/
structure GslSolver (R W : Type) where
  x : Vec3 R
  dx : Vec3 R
  f : Vec3 R
  work : W
deriving DecidableEq

/-- Model of the external GSL routine `gsl_multiroot_test_delta(dx, x, epsabs,
epsrel)` from its reference semantics: reject a negative relative tolerance
with `GSL_EBADTOL`; otherwise return `GSL_SUCCESS` when every component
satisfies `|dx_i| < epsabs + epsrel * |x_i|`, and `GSL_CONTINUE` otherwise. -/
def gslMultirootTestDelta {R : Type} [LinearOrderedField R]
    (dx x : Vec3 R) (epsabs epsrel : R) : Int :=
  if epsrel < 0 then GSL_EBADTOL
  else if |dx.x| < epsabs + epsrel * |x.x| ∧
          |dx.y| < epsabs + epsrel * |x.y| ∧
          |dx.z| < epsabs + epsrel * |x.z| then GSL_SUCCESS
  else GSL_CONTINUE

/-- Modelled from the spec: one row of the diagnostic trace. The printing
helpers `printAtomSolverStateTableHeader` / `printAtomSolverState` live in a
repository header that is not among the sources under verification; per the
spec (§3, §4.3) each captured row records the iteration index together with
the current iterate, step and residual of the solver. The textual summary is
modelled structurally as the list of these rows plus the final status line. -/
structure TraceRow (R : Type) where
  iteration : Int
  iterate : Vec3 R
  step : Vec3 R
  residual : Vec3 R
deriving DecidableEq

/-- The row appended by `summary << printAtomSolverState( counter, solver )`:
the current counter value and the solver's iterate, step and residual. -/
def mkTraceRow {R W : Type} (counter : Int) (solver : GslSolver R W) : TraceRow R :=
  { iteration := counter, iterate := solver.x, step := solver.dx, residual := solver.f }

/-- Structural model of the solver status summary string: the data rows
accumulated in the `summary` buffer, and the final status line
(`Status of non-linear solver: ...`), `none` until that line is written. -/
structure SolverSummary (R : Type) where
  rows : List (TraceRow R)
  finalStatus : Option Int
deriving DecidableEq

/-- Modelled from the spec: the signature of
`convertCartesianStateToTwoLineElements` (its definition lives in
`Atom/convertCartesianStateToTwoLineElements.hpp`, which is not among the
sources under verification). Arguments mirror the call sites: Cartesian
state, epoch, reference TLE, gravitational parameter, body radius, absolute
and relative tolerance, and iteration budget (the two dummy diagnostic
out-parameters are dropped). Per spec §6/§7 the conversion is fallible; a
`.error` value models the thrown exception, since the call sites bind the
plain returned `Tle` and check no status. -/
def ConvertFn (R Epoch Tle : Type) : Type :=
  Cartesian6 R → Epoch → Tle → R → R → R → R → Int → Except String Tle

/-- Modelled from the spec: the SGP4 propagation step `SGP4(tle).FindPosition(
timeOfFlight)` (external libsgp4 code), advancing a TLE by a duration and
returning the resulting Cartesian state; fallible, with `.error` modelling a
thrown exception. -/
def PropagateFn (R Tle : Type) : Type :=
  Tle → R → Except String (Cartesian6 R)

/-- The `AtomParameters` struct handed to the residual function through GSL's
untyped parameter channel (all fields as in the source). -/
structure AtomParameters (R Epoch Tle : Type) where
  departurePosition : Vec3 R
  departureEpoch : Epoch
  targetPosition : Vec3 R
  timeOfFlight : R
  earthGravitationalParameter : R
  earthMeanRadius : R
  referenceTle : Tle
  absoluteTolerance : R
  relativeTolerance : R
  maximumIterations : Int

/-- The residual function `computeAtomResiduals`: read the candidate departure
velocity from the independent variables, assemble the 6-component departure
state from the fixed departure position and the candidate velocity, convert it
to a TLE, propagate by the time-of-flight, and return the propagated position
minus the target position, non-dimensionalized by the Earth mean radius.
The C++ function returns a GSL status `int` and can additionally abort by
exception (modelled by `Except`): its only `return` statement is
`return GSL_SUCCESS;`, so a successful return always carries `GSL_SUCCESS`
paired with the residual vector written to the output argument. -/
def computeAtomResiduals {R Epoch Tle : Type} [LinearOrderedField R]
    (convert : ConvertFn R Epoch Tle) (propagate : PropagateFn R Tle)
    (parameters : AtomParameters R Epoch Tle) (independentVariables : Vec3 R) :
    Except String (Int × Vec3 R) :=
  let departurePosition := parameters.departurePosition
  let departureEpoch := parameters.departureEpoch
  let targetPosition := parameters.targetPosition
  let timeOfFlight := parameters.timeOfFlight
  let earthGravitationalParameter := parameters.earthGravitationalParameter
  let earthMeanRadius := parameters.earthMeanRadius
  let referenceTle := parameters.referenceTle
  let absoluteTolerance := parameters.absoluteTolerance
  let relativeTolerance := parameters.relativeTolerance
  let maximumIterations := parameters.maximumIterations
  let departureVelocity := independentVariables
  let departureState : Cartesian6 R := { pos := departurePosition, vel := departureVelocity }
  match convert departureState departureEpoch referenceTle earthGravitationalParameter
      earthMeanRadius absoluteTolerance relativeTolerance maximumIterations with
  | .error e => .error e
  | .ok departureTle =>
    match propagate departureTle timeOfFlight with
    | .error e => .error e
    | .ok arrivalState =>
      .ok (GSL_SUCCESS,
        { x := (arrivalState.pos.x - targetPosition.x) / earthMeanRadius,
          y := (arrivalState.pos.y - targetPosition.y) / earthMeanRadius,
          z := (arrivalState.pos.z - targetPosition.z) / earthMeanRadius })

/-- The residual pipeline as the specification words it (§4.1): concatenate the
departure position and the candidate velocity into a 6-component state, convert
to mean elements, propagate by the time-of-flight, subtract the target arrival
position component-wise and divide each component by the body radius. -/
def atomResidualsSpec {R Epoch Tle : Type} [LinearOrderedField R]
    (convert : ConvertFn R Epoch Tle) (propagate : PropagateFn R Tle)
    (parameters : AtomParameters R Epoch Tle) (candidateVelocity : Vec3 R) :
    Except String (Vec3 R) :=
  (convert { pos := parameters.departurePosition, vel := candidateVelocity }
      parameters.departureEpoch parameters.referenceTle
      parameters.earthGravitationalParameter parameters.earthMeanRadius
      parameters.absoluteTolerance parameters.relativeTolerance
      parameters.maximumIterations).bind fun meanElementState =>
    (propagate meanElementState parameters.timeOfFlight).map fun arrivalState =>
      { x := (arrivalState.pos.x - parameters.targetPosition.x) / parameters.earthMeanRadius,
        y := (arrivalState.pos.y - parameters.targetPosition.y) / parameters.earthMeanRadius,
        z := (arrivalState.pos.z - parameters.targetPosition.z) / parameters.earthMeanRadius }

/-- Failures of `executeAtomSolver` at the caller boundary:
`solverStuck` models the `throw std::runtime_error("ERROR: Non-linear solver
is stuck!")` after the GSL iterate reports a nonzero status — it carries the
status and the diagnostic rows printed to `std::cerr`; `adapterException`
models an exception escaping from the post-loop conversion or propagation. -/
inductive AtomError (R : Type) where
  | solverStuck (status : Int) (trace : List (TraceRow R))
  | adapterException (message : String)
deriving DecidableEq

/-- The body of the `do { ... } while` loop of `executeAtomSolver`, fuelled so
that the recursion is structural. One pass appends the current solver state to
the summary, increments the counter, performs one GSL iterate (aborting with
the status and the accumulated rows when it reports a nonzero status), runs
`gsl_multiroot_test_delta` on the updated step and iterate, and repeats while
the test says `GSL_CONTINUE` and the counter is below the iteration budget.
`atomLoop` below supplies fuel `(maximumIterations - counter).toNat`, which
reaches zero only once `counter` has reached the budget — where the do-while
guard `counter2 < maximumIterations` is false anyway — so the zero-fuel
equation can exit unconditionally without changing the loop's semantics. -/
def atomLoopAux {R W : Type} [LinearOrderedField R]
    (gslIterate : GslSolver R W → Int × GslSolver R W)
    (absoluteTolerance relativeTolerance : R) (maximumIterations : Int) :
    Nat → GslSolver R W → Int → List (TraceRow R) →
    Except (Int × List (TraceRow R)) (GslSolver R W × Int × List (TraceRow R) × Int)
  | 0, solver, counter, trace =>
    let trace2 := trace ++ [mkTraceRow counter solver]
    let counter2 := counter + 1
    let stepResult := gslIterate solver
    if stepResult.1 ≠ 0 then
      .error (stepResult.1, trace2)
    else
      let solverStatus := gslMultirootTestDelta stepResult.2.dx stepResult.2.x
        absoluteTolerance relativeTolerance
      .ok (stepResult.2, counter2, trace2, solverStatus)
  | fuel2 + 1, solver, counter, trace =>
    let trace2 := trace ++ [mkTraceRow counter solver]
    let counter2 := counter + 1
    let stepResult := gslIterate solver
    if stepResult.1 ≠ 0 then
      .error (stepResult.1, trace2)
    else
      let solverStatus := gslMultirootTestDelta stepResult.2.dx stepResult.2.x
        absoluteTolerance relativeTolerance
      if solverStatus = GSL_CONTINUE ∧ counter2 < maximumIterations then
        atomLoopAux gslIterate absoluteTolerance relativeTolerance maximumIterations
          fuel2 stepResult.2 counter2 trace2
      else
        .ok (stepResult.2, counter2, trace2, solverStatus)

/-- The `do { ... } while ( solverStatus == GSL_CONTINUE && counter <
maximumIterations )` loop of `executeAtomSolver`, entered with the freshly-set
solver, `counter = 0` and an empty row buffer. The fuel
`(maximumIterations - counter).toNat` bounds the passes exactly as the
counter guard does, so the loop's semantics coincide with the C++ do-while. -/
def atomLoop {R W : Type} [LinearOrderedField R]
    (gslIterate : GslSolver R W → Int × GslSolver R W)
    (absoluteTolerance relativeTolerance : R) (maximumIterations : Int)
    (solver : GslSolver R W) (counter : Int) (trace : List (TraceRow R)) :
    Except (Int × List (TraceRow R)) (GslSolver R W × Int × List (TraceRow R) × Int) :=
  atomLoopAux gslIterate absoluteTolerance relativeTolerance maximumIterations
    (maximumIterations - counter).toNat solver counter trace

/-- The full overload of `executeAtomSolver` (the one taking the
`solverStatusSummary` and `numberOfIterations` out-parameters). The function
is modelled with explicit out-parameter passing: it receives the caller's
current values of the two out-parameters and returns, next to the
departure/arrival velocity pair (or the error), the values those variables
hold when control returns to the caller. On the solver-stuck throw the
out-parameters are returned untouched, because the C++ assigns them only after
the loop exits normally; on a post-loop adapter exception they have already
been assigned. `arrivalPosition` reaches the residual function only through
the `AtomParameters` bundle handed to GSL, which is opaque behind
`gslIterate`, so it is unused in this model of the entry point itself. -/
def executeAtomSolverFull {R Epoch Tle W : Type} [LinearOrderedField R]
    (gslSet : Vec3 R → GslSolver R W)
    (gslIterate : GslSolver R W → Int × GslSolver R W)
    (convert : ConvertFn R Epoch Tle) (propagate : PropagateFn R Tle)
    (departurePosition : Vec3 R) (departureEpoch : Epoch)
    (arrivalPosition : Vec3 R) (timeOfFlight : R)
    (departureVelocityGuess : Vec3 R)
    (solverStatusSummary : SolverSummary R) (numberOfIterations : Int)
    (referenceTle : Tle)
    (earthGravitationalParameter earthMeanRadius : R)
    (absoluteTolerance relativeTolerance : R) (maximumIterations : Int) :
    Except (AtomError R) (Vec3 R × Vec3 R) × SolverSummary R × Int :=
  match atomLoop gslIterate absoluteTolerance relativeTolerance maximumIterations
      (gslSet departureVelocityGuess) 0 [] with
  | .error (status, trace) =>
      (.error (.solverStuck status trace), solverStatusSummary, numberOfIterations)
  | .ok (solver, counter, trace, finalStatus) =>
      let numberOfIterations2 := counter - 1
      let summary2 : SolverSummary R := { rows := trace, finalStatus := some finalStatus }
      let departureVelocity := solver.x
      let departureState : Cartesian6 R :=
        { pos := departurePosition, vel := departureVelocity }
      match convert departureState departureEpoch referenceTle
          earthGravitationalParameter earthMeanRadius
          absoluteTolerance relativeTolerance maximumIterations with
      | .error e => (.error (.adapterException e), summary2, numberOfIterations2)
      | .ok departureTle =>
        match propagate departureTle timeOfFlight with
        | .error e => (.error (.adapterException e), summary2, numberOfIterations2)
        | .ok arrivalState =>
          (.ok (departureVelocity, arrivalState.vel), summary2, numberOfIterations2)

/-- Default absolute tolerance of `executeAtomSolver`: `1.0e-10`. -/
def defaultAbsoluteTolerance (R : Type) [LinearOrderedField R] : R := 1 / 10 ^ 10

/-- Default relative tolerance of `executeAtomSolver`: `1.0e-5`. -/
def defaultRelativeTolerance (R : Type) [LinearOrderedField R] : R := 1 / 10 ^ 5

/-- Default iteration budget of `executeAtomSolver`: `100`. -/
def defaultMaximumIterations : Int := 100

/-- The convenience overload of `executeAtomSolver`: it introduces a dummy
string and a dummy integer (value `0`), forwards to the full overload — which
then uses its declaration defaults `Tle( )`, `kMU`, `kXKMPER`, `1.0e-10`,
`1.0e-5` and `100` — and returns only the velocity pair. `defaultTle`, `kMU`
and `kXKMPER` stand for the external libsgp4 default reference TLE and
constants. The dummy string maps to the empty summary `{ rows := [],
finalStatus := none }`. -/
def executeAtomSolverSimple {R Epoch Tle W : Type} [LinearOrderedField R]
    (gslSet : Vec3 R → GslSolver R W)
    (gslIterate : GslSolver R W → Int × GslSolver R W)
    (convert : ConvertFn R Epoch Tle) (propagate : PropagateFn R Tle)
    (defaultTle : Tle) (kMU kXKMPER : R)
    (departurePosition : Vec3 R) (departureEpoch : Epoch)
    (arrivalPosition : Vec3 R) (timeOfFlight : R)
    (departureVelocityGuess : Vec3 R) :
    Except (AtomError R) (Vec3 R × Vec3 R) :=
  (executeAtomSolverFull gslSet gslIterate convert propagate
    departurePosition departureEpoch arrivalPosition timeOfFlight
    departureVelocityGuess { rows := [], finalStatus := none } 0
    defaultTle kMU kXKMPER
    (defaultAbsoluteTolerance R) (defaultRelativeTolerance R)
    defaultMaximumIterations).1

deriving instance DecidableEq for Except

/-- Test fixture: a seeding stub that installs the guess as the iterate with
zero step and residual, as `gsl_multiroot_fsolver_set` does. -/
def testGslSet : Vec3 ℚ → GslSolver ℚ Unit :=
  fun guess => { x := guess, dx := ⟨0, 0, 0⟩, f := ⟨0, 0, 0⟩, work := () }

/-- Test fixture: a GSL iterate stub that succeeds (status 0) and leaves the
solver state unchanged. -/
def testIterateId : GslSolver ℚ Unit → Int × GslSolver ℚ Unit := fun s => (0, s)

/-- Test fixture: a GSL iterate stub reporting internal failure status 1. -/
def testIterateStuck : GslSolver ℚ Unit → Int × GslSolver ℚ Unit := fun s => (1, s)

/-- Test fixture: a conversion stub that always fits an element set. -/
def testConvertOk : ConvertFn ℚ Unit Unit := fun _ _ _ _ _ _ _ _ => .ok ()

/-- Test fixture: a conversion stub that always fails. -/
def testConvertFail : ConvertFn ℚ Unit Unit := fun _ _ _ _ _ _ _ _ => .error "conversion failed"

/-- Test fixture: a propagation stub returning a recognizable state. -/
def testPropagateOk : PropagateFn ℚ Unit := fun _ _ => .ok { pos := ⟨7, 8, 9⟩, vel := ⟨9, 9, 9⟩ }

/-- Test fixture: a propagation stub that always fails. -/
def testPropagateFail : PropagateFn ℚ Unit := fun _ _ => .error "propagation failed"

/-- Test fixture: a parameter bundle over `ℚ` with unit epoch and TLE types. -/
def testAtomParameters : AtomParameters ℚ Unit Unit :=
  { departurePosition := ⟨7000, 0, 0⟩
    departureEpoch := ()
    targetPosition := ⟨0, 7000, 0⟩
    timeOfFlight := 2700
    earthGravitationalParameter := 398600
    earthMeanRadius := 6378
    referenceTle := ()
    absoluteTolerance := 1 / 10 ^ 10
    relativeTolerance := 1 / 10 ^ 5
    maximumIterations := 100 }

/-- Invariant of a completed (non-stuck) run of the loop body: the counter
strictly increases; the row buffer grows by exactly one row per pass (so its
final length is the initial length plus the counter increase); the first row
appended records the state the loop was entered with; a `GSL_CONTINUE` exit
means the iteration budget was reached; from below the budget the counter
never exceeds it; and the returned status is `gsl_multiroot_test_delta`
evaluated on the final solver's step and iterate. -/
theorem atomLoopAux_ok_spec {R W : Type} [LinearOrderedField R]
    (gslIterate : GslSolver R W → Int × GslSolver R W)
    (absoluteTolerance relativeTolerance : R) (m : Int) :
    ∀ (fuel : Nat) (s : GslSolver R W) (c : Int) (tr : List (TraceRow R))
      (s2 : GslSolver R W) (c2 : Int) (tr2 : List (TraceRow R)) (st : Int),
      (m - c).toNat ≤ fuel →
      atomLoopAux gslIterate absoluteTolerance relativeTolerance m fuel s c tr
        = .ok (s2, c2, tr2, st) →
      c < c2 ∧ ((tr2.length : Int) = tr.length + (c2 - c)) ∧
      (∃ rest, tr2 = tr ++ mkTraceRow c s :: rest) ∧
      (st = GSL_CONTINUE → m ≤ c2) ∧
      (c < m → c2 ≤ m) ∧
      st = gslMultirootTestDelta s2.dx s2.x absoluteTolerance relativeTolerance := by
  intro fuel
  induction fuel with
  | zero =>
    intro s c tr s2 c2 tr2 st hfuel h
    simp only [atomLoopAux] at h
    split at h
    · simp at h
    · simp only [Except.ok.injEq, Prod.mk.injEq] at h
      obtain ⟨hs2, hc2, htr2, hst⟩ := h
      subst hs2; subst hc2; subst htr2; subst hst
      refine ⟨by omega, ?_, ⟨[], rfl⟩, fun _ => by omega, by omega, rfl⟩
      simp only [List.length_append, List.length_singleton]
      push_cast
      omega
  | succ k ih =>
    intro s c tr s2 c2 tr2 st hfuel h
    simp only [atomLoopAux] at h
    split at h
    · simp at h
    · split at h
      · next hguard =>
        have hfuel2 : (m - (c + 1)).toNat ≤ k := by omega
        obtain ⟨h1, h2, h3, h4, h5, h6⟩ :=
          ih (gslIterate s).2 (c + 1) (tr ++ [mkTraceRow c s]) s2 c2 tr2 st hfuel2 h
        refine ⟨by omega, ?_, ?_, h4, fun _ => h5 hguard.2, h6⟩
        · simp only [List.length_append, List.length_singleton] at h2
          push_cast at h2 ⊢
          omega
        · obtain ⟨rest, hrest⟩ := h3
          refine ⟨mkTraceRow (c + 1) (gslIterate s).2 :: rest, ?_⟩
          rw [hrest, List.append_assoc]
          rfl
      · next hguard =>
        simp only [Except.ok.injEq, Prod.mk.injEq] at h
        obtain ⟨hs2, hc2, htr2, hst⟩ := h
        subst hs2; subst hc2; subst htr2; subst hst
        refine ⟨by omega, ?_, ⟨[], rfl⟩, ?_, by omega, rfl⟩
        · simp only [List.length_append, List.length_singleton]
          push_cast
          omega
        · intro hCont
          by_contra hlt
          exact hguard ⟨hCont, by omega⟩

/-- `atomLoop` specializes the fuelled invariant: the entry point supplies
exactly the fuel the counter guard requires. -/
theorem atomLoop_ok_spec {R W : Type} [LinearOrderedField R]
    (gslIterate : GslSolver R W → Int × GslSolver R W)
    (absoluteTolerance relativeTolerance : R) (m : Int)
    (s : GslSolver R W) (c : Int) (tr : List (TraceRow R))
    (s2 : GslSolver R W) (c2 : Int) (tr2 : List (TraceRow R)) (st : Int)
    (h : atomLoop gslIterate absoluteTolerance relativeTolerance m s c tr
      = .ok (s2, c2, tr2, st)) :
    c < c2 ∧ ((tr2.length : Int) = tr.length + (c2 - c)) ∧
    (∃ rest, tr2 = tr ++ mkTraceRow c s :: rest) ∧
    (st = GSL_CONTINUE → m ≤ c2) ∧
    (c < m → c2 ≤ m) ∧
    st = gslMultirootTestDelta s2.dx s2.x absoluteTolerance relativeTolerance :=
  atomLoopAux_ok_spec gslIterate absoluteTolerance relativeTolerance m
    ((m - c).toNat) s c tr s2 c2 tr2 st (le_refl _) h

/-- Entering the loop body with a GSL iterate that reports a nonzero status
aborts the loop at once with that status and the rows accumulated so far plus
the row appended at the start of the failing pass. -/
theorem atomLoop_stuck {R W : Type} [LinearOrderedField R]
    (gslIterate : GslSolver R W → Int × GslSolver R W)
    (absoluteTolerance relativeTolerance : R) (m : Int)
    (s : GslSolver R W) (c : Int) (tr : List (TraceRow R))
    (hst : (gslIterate s).1 ≠ 0) :
    atomLoop gslIterate absoluteTolerance relativeTolerance m s c tr
      = .error ((gslIterate s).1, tr ++ [mkTraceRow c s]) := by
  unfold atomLoop
  cases (m - c).toNat <;> simp [atomLoopAux, hst]

/-- A pass of the loop body whose step succeeds and which then exits (either
the delta test does not say continue, or the budget bars another pass)
returns the updated solver, the incremented counter, the extended rows and
the delta-test status. -/
theorem atomLoop_one_pass {R W : Type} [LinearOrderedField R]
    (gslIterate : GslSolver R W → Int × GslSolver R W)
    (absoluteTolerance relativeTolerance : R) (m : Int)
    (s : GslSolver R W) (c : Int) (tr : List (TraceRow R))
    (h0 : (gslIterate s).1 = 0)
    (hexit : ¬(gslMultirootTestDelta (gslIterate s).2.dx (gslIterate s).2.x
        absoluteTolerance relativeTolerance = GSL_CONTINUE ∧ c + 1 < m)) :
    atomLoop gslIterate absoluteTolerance relativeTolerance m s c tr
      = .ok ((gslIterate s).2, c + 1, tr ++ [mkTraceRow c s],
          gslMultirootTestDelta (gslIterate s).2.dx (gslIterate s).2.x
            absoluteTolerance relativeTolerance) := by
  unfold atomLoop
  cases (m - c).toNat with
  | zero => simp [atomLoopAux, h0]
  | succ k => simp [atomLoopAux, h0, hexit]

/-- A solve whose loop completes and whose post-loop conversion and
propagation succeed returns the final iterate as departure velocity and the
propagated velocity as arrival velocity, with the summary and counter
assigned from the loop. -/
theorem executeAtomSolverFull_ok_run {R Epoch Tle W : Type} [LinearOrderedField R]
    (gslSet : Vec3 R → GslSolver R W)
    (gslIterate : GslSolver R W → Int × GslSolver R W)
    (convert : ConvertFn R Epoch Tle) (propagate : PropagateFn R Tle)
    (departurePosition : Vec3 R) (departureEpoch : Epoch) (arrivalPosition : Vec3 R)
    (timeOfFlight : R) (departureVelocityGuess : Vec3 R)
    (solverStatusSummary : SolverSummary R) (numberOfIterations : Int)
    (referenceTle : Tle) (mu radius absoluteTolerance relativeTolerance : R)
    (maximumIterations : Int)
    (s2 : GslSolver R W) (c2 : Int) (tr2 : List (TraceRow R)) (finalStatus : Int)
    (departureTle : Tle) (arrivalState : Cartesian6 R)
    (hloop : atomLoop gslIterate absoluteTolerance relativeTolerance maximumIterations
      (gslSet departureVelocityGuess) 0 [] = .ok (s2, c2, tr2, finalStatus))
    (hconv : convert { pos := departurePosition, vel := s2.x } departureEpoch referenceTle
      mu radius absoluteTolerance relativeTolerance maximumIterations = .ok departureTle)
    (hprop : propagate departureTle timeOfFlight = .ok arrivalState) :
    executeAtomSolverFull gslSet gslIterate convert propagate
      departurePosition departureEpoch arrivalPosition timeOfFlight
      departureVelocityGuess solverStatusSummary numberOfIterations
      referenceTle mu radius absoluteTolerance relativeTolerance maximumIterations
      = (.ok (s2.x, arrivalState.vel),
         { rows := tr2, finalStatus := some finalStatus }, c2 - 1) := by
  unfold executeAtomSolverFull
  simp only [hloop, hconv, hprop]

/-- A solve whose very first step reports a nonzero status returns the stuck
failure with the single seed row and the untouched out-parameter values. -/
theorem executeAtomSolverFull_stuck_run {R Epoch Tle W : Type} [LinearOrderedField R]
    (gslSet : Vec3 R → GslSolver R W)
    (gslIterate : GslSolver R W → Int × GslSolver R W)
    (convert : ConvertFn R Epoch Tle) (propagate : PropagateFn R Tle)
    (departurePosition : Vec3 R) (departureEpoch : Epoch) (arrivalPosition : Vec3 R)
    (timeOfFlight : R) (departureVelocityGuess : Vec3 R)
    (solverStatusSummary : SolverSummary R) (numberOfIterations : Int)
    (referenceTle : Tle) (mu radius absoluteTolerance relativeTolerance : R)
    (maximumIterations : Int)
    (hst : (gslIterate (gslSet departureVelocityGuess)).1 ≠ 0) :
    executeAtomSolverFull gslSet gslIterate convert propagate
      departurePosition departureEpoch arrivalPosition timeOfFlight
      departureVelocityGuess solverStatusSummary numberOfIterations
      referenceTle mu radius absoluteTolerance relativeTolerance maximumIterations
      = (.error (.solverStuck (gslIterate (gslSet departureVelocityGuess)).1
           [mkTraceRow 0 (gslSet departureVelocityGuess)]),
         solverStatusSummary, numberOfIterations) := by
  unfold executeAtomSolverFull
  rw [atomLoop_stuck gslIterate absoluteTolerance relativeTolerance
    maximumIterations (gslSet departureVelocityGuess) 0 [] hst]
  rfl

/-- A concrete run over `ℚ` that converges on the first pass: the identity
step stub leaves the seeded zero step, which passes the delta test with unit
absolute tolerance. -/
theorem testConvergedRun :
    atomLoop testIterateId (1 : ℚ) 0 5 (testGslSet ⟨3, 4, 5⟩) 0 []
      = .ok (testGslSet ⟨3, 4, 5⟩, 1, [mkTraceRow 0 (testGslSet ⟨3, 4, 5⟩)], GSL_SUCCESS) := by
  have hdelta : gslMultirootTestDelta (testIterateId (testGslSet (⟨3, 4, 5⟩ : Vec3 ℚ))).2.dx
      (testIterateId (testGslSet (⟨3, 4, 5⟩ : Vec3 ℚ))).2.x (1 : ℚ) 0 = GSL_SUCCESS := by
    norm_num [gslMultirootTestDelta, testGslSet, testIterateId]
  have hrun := atomLoop_one_pass testIterateId (1 : ℚ) 0 5 (testGslSet ⟨3, 4, 5⟩) 0 [] rfl
    (by rw [hdelta]; norm_num [GSL_SUCCESS, GSL_CONTINUE])
  rw [hdelta] at hrun
  exact hrun

/-- The converged concrete run pushed through the full solve with the
always-succeeding adapter stubs. -/
theorem testConvergedFullRun :
    executeAtomSolverFull testGslSet testIterateId testConvertOk testPropagateOk
      (⟨7000, 0, 0⟩ : Vec3 ℚ) () ⟨0, 7000, 0⟩ 2700 ⟨3, 4, 5⟩
      { rows := [], finalStatus := none } 0 () 1 1 1 0 5
      = (.ok (⟨3, 4, 5⟩, ⟨9, 9, 9⟩),
         { rows := [mkTraceRow 0 (testGslSet ⟨3, 4, 5⟩)], finalStatus := some GSL_SUCCESS },
         0) :=
  executeAtomSolverFull_ok_run testGslSet testIterateId testConvertOk testPropagateOk
    ⟨7000, 0, 0⟩ () ⟨0, 7000, 0⟩ 2700 ⟨3, 4, 5⟩ { rows := [], finalStatus := none } 0
    () 1 1 1 0 5 (testGslSet ⟨3, 4, 5⟩) 1 [mkTraceRow 0 (testGslSet ⟨3, 4, 5⟩)]
    GSL_SUCCESS () ⟨⟨7, 8, 9⟩, ⟨9, 9, 9⟩⟩ testConvergedRun rfl rfl


/-- Claim C3: for every candidate departure velocity, `computeAtomResiduals`
returns exactly the residual obtained by concatenating the fixed departure
position with the candidate velocity into a 6-component state, converting it
to mean elements, propagating by the time-of-flight, subtracting the target
arrival position component-wise from the propagated position and dividing
each component by the body radius (`earthMeanRadius`) — paired with the
`GSL_SUCCESS` return code. -/
theorem computeAtomResiduals_eq_spec {R Epoch Tle : Type} [LinearOrderedField R]
    (convert : ConvertFn R Epoch Tle) (propagate : PropagateFn R Tle)
    (parameters : AtomParameters R Epoch Tle) (candidateVelocity : Vec3 R) :
    computeAtomResiduals convert propagate parameters candidateVelocity
      = (atomResidualsSpec convert propagate parameters candidateVelocity).map
          (fun residuals => (GSL_SUCCESS, residuals)) := by
  simp only [computeAtomResiduals, atomResidualsSpec]
  cases hc : convert { pos := parameters.departurePosition, vel := candidateVelocity }
      parameters.departureEpoch parameters.referenceTle
      parameters.earthGravitationalParameter parameters.earthMeanRadius
      parameters.absoluteTolerance parameters.relativeTolerance
      parameters.maximumIterations with
  | error e => simp [Except.bind, Except.map]
  | ok departureTle =>
    cases hp : propagate departureTle parameters.timeOfFlight with
    | error e => simp [hp, Except.bind, Except.map]
    | ok arrivalState => simp [hp, Except.bind, Except.map]

/-- Claim C9: the convenience overload of `executeAtomSolver` returns the same
(departureVelocity, arrivalVelocity) pair as the full overload called with the
documented defaults: dummy diagnostics outputs, the default reference TLE, the
default gravitational parameter `kMU` and radius `kXKMPER`, absolute tolerance
`1.0e-10`, relative tolerance `1.0e-5`, and `100` iterations. -/
theorem executeAtomSolverSimple_eq_full {R Epoch Tle W : Type} [LinearOrderedField R]
    (gslSet : Vec3 R → GslSolver R W)
    (gslIterate : GslSolver R W → Int × GslSolver R W)
    (convert : ConvertFn R Epoch Tle) (propagate : PropagateFn R Tle)
    (defaultTle : Tle) (kMU kXKMPER : R)
    (departurePosition : Vec3 R) (departureEpoch : Epoch)
    (arrivalPosition : Vec3 R) (timeOfFlight : R)
    (departureVelocityGuess : Vec3 R) :
    executeAtomSolverSimple gslSet gslIterate convert propagate defaultTle kMU kXKMPER
      departurePosition departureEpoch arrivalPosition timeOfFlight departureVelocityGuess
      = (executeAtomSolverFull gslSet gslIterate convert propagate
          departurePosition departureEpoch arrivalPosition timeOfFlight
          departureVelocityGuess { rows := [], finalStatus := none } 0
          defaultTle kMU kXKMPER
          (defaultAbsoluteTolerance R) (defaultRelativeTolerance R)
          defaultMaximumIterations).1 := rfl

/-- Claim C8: two calls to the solver with identical inputs and the same
deterministic adapter and root-finder functions return identical results
(velocities, status summary and iteration count alike): the embedded solver is
a pure function of its explicit inputs, reflecting that the C++ entry point
reads and writes no mutable global state. -/
theorem executeAtomSolver_idempotent {R Epoch Tle W : Type} [LinearOrderedField R]
    (gslSet : Vec3 R → GslSolver R W)
    (gslIterate : GslSolver R W → Int × GslSolver R W)
    (convert : ConvertFn R Epoch Tle) (propagate : PropagateFn R Tle)
    (dp1 dp2 : Vec3 R) (ep1 ep2 : Epoch) (ap1 ap2 : Vec3 R) (tof1 tof2 : R)
    (g1 g2 : Vec3 R) (ss1 ss2 : SolverSummary R) (n1 n2 : Int) (tle1 tle2 : Tle)
    (mu1 mu2 rad1 rad2 aT1 aT2 rT1 rT2 : R) (mi1 mi2 : Int)
    (hdp : dp1 = dp2) (hep : ep1 = ep2) (hap : ap1 = ap2) (htof : tof1 = tof2)
    (hg : g1 = g2) (hss : ss1 = ss2) (hn : n1 = n2) (htle : tle1 = tle2)
    (hmu : mu1 = mu2) (hrad : rad1 = rad2) (haT : aT1 = aT2) (hrT : rT1 = rT2)
    (hmi : mi1 = mi2) :
    executeAtomSolverFull gslSet gslIterate convert propagate
      dp1 ep1 ap1 tof1 g1 ss1 n1 tle1 mu1 rad1 aT1 rT1 mi1
      = executeAtomSolverFull gslSet gslIterate convert propagate
        dp2 ep2 ap2 tof2 g2 ss2 n2 tle2 mu2 rad2 aT2 rT2 mi2 := by
  subst hdp; subst hep; subst hap; subst htof; subst hg; subst hss; subst hn
  subst htle; subst hmu; subst hrad; subst haT; subst hrT; subst hmi
  rfl

/-- Witness for C8: the idempotence theorem applied at a concrete input. -/
theorem executeAtomSolver_idempotent_witness :
    executeAtomSolverFull testGslSet testIterateId testConvertOk testPropagateOk
      (⟨7000, 0, 0⟩ : Vec3 ℚ) () ⟨0, 7000, 0⟩ 2700 ⟨3, 4, 5⟩
      { rows := [], finalStatus := none } 0 () 1 1 1 0 5
      = executeAtomSolverFull testGslSet testIterateId testConvertOk testPropagateOk
        (⟨7000, 0, 0⟩ : Vec3 ℚ) () ⟨0, 7000, 0⟩ 2700 ⟨3, 4, 5⟩
        { rows := [], finalStatus := none } 0 () 1 1 1 0 5 :=
  executeAtomSolver_idempotent testGslSet testIterateId testConvertOk testPropagateOk
    ⟨7000, 0, 0⟩ ⟨7000, 0, 0⟩ () () ⟨0, 7000, 0⟩ ⟨0, 7000, 0⟩ 2700 2700
    ⟨3, 4, 5⟩ ⟨3, 4, 5⟩ { rows := [], finalStatus := none } { rows := [], finalStatus := none }
    0 0 () () 1 1 1 1 1 1 0 0 5 5
    rfl rfl rfl rfl rfl rfl rfl rfl rfl rfl rfl rfl rfl

/-- Claim C4: after the root-finder iterations, the loop's convergence
decision is exactly GSL's native dual absolute/relative step test
`gsl_multiroot_test_delta( solver->dx, solver->x, absoluteTolerance,
relativeTolerance )`: the status a completed loop exits with is that test
evaluated on the final step and iterate (the step, not the residual), and —
for a nonnegative relative tolerance — it reports convergence (`GSL_SUCCESS`,
the `Converged` exit) precisely when every component of the last step
satisfies `|dx_i| < absoluteTolerance + relativeTolerance * |x_i|`. -/
theorem convergence_is_delta_test {R W : Type} [LinearOrderedField R]
    (gslIterate : GslSolver R W → Int × GslSolver R W)
    (absoluteTolerance relativeTolerance : R) (maximumIterations : Int)
    (s0 : GslSolver R W) (c0 : Int) (tr0 : List (TraceRow R))
    (s2 : GslSolver R W) (c2 : Int) (tr2 : List (TraceRow R)) (st : Int)
    (h : atomLoop gslIterate absoluteTolerance relativeTolerance maximumIterations
      s0 c0 tr0 = .ok (s2, c2, tr2, st))
    (hrel : 0 ≤ relativeTolerance) :
    st = gslMultirootTestDelta s2.dx s2.x absoluteTolerance relativeTolerance ∧
    (st = GSL_SUCCESS ↔
      (|s2.dx.x| < absoluteTolerance + relativeTolerance * |s2.x.x| ∧
       |s2.dx.y| < absoluteTolerance + relativeTolerance * |s2.x.y| ∧
       |s2.dx.z| < absoluteTolerance + relativeTolerance * |s2.x.z|)) := by
  obtain ⟨-, -, -, -, -, h6⟩ := atomLoop_ok_spec gslIterate absoluteTolerance
    relativeTolerance maximumIterations s0 c0 tr0 s2 c2 tr2 st h
  refine ⟨h6, ?_⟩
  rw [h6]
  unfold gslMultirootTestDelta
  rw [if_neg (not_lt.mpr hrel)]
  split
  · next hcond => simp [hcond]
  · next hcond => simp [GSL_CONTINUE, GSL_SUCCESS, hcond]

/-- Witness for C4 at a concrete converged run (one pass, zero step). -/
theorem convergence_is_delta_test_witness :
    (GSL_SUCCESS = gslMultirootTestDelta (testGslSet (⟨3, 4, 5⟩ : Vec3 ℚ)).dx
      (testGslSet (⟨3, 4, 5⟩ : Vec3 ℚ)).x 1 0) ∧
    (GSL_SUCCESS = GSL_SUCCESS ↔
      (|(testGslSet (⟨3, 4, 5⟩ : Vec3 ℚ)).dx.x| < 1 + 0 * |(testGslSet (⟨3, 4, 5⟩ : Vec3 ℚ)).x.x| ∧
       |(testGslSet (⟨3, 4, 5⟩ : Vec3 ℚ)).dx.y| < 1 + 0 * |(testGslSet (⟨3, 4, 5⟩ : Vec3 ℚ)).x.y| ∧
       |(testGslSet (⟨3, 4, 5⟩ : Vec3 ℚ)).dx.z| < 1 + 0 * |(testGslSet (⟨3, 4, 5⟩ : Vec3 ℚ)).x.z|)) :=
  convergence_is_delta_test testIterateId 1 0 5 (testGslSet ⟨3, 4, 5⟩) 0 []
    (testGslSet ⟨3, 4, 5⟩) 1 [mkTraceRow 0 (testGslSet ⟨3, 4, 5⟩)] GSL_SUCCESS
    testConvergedRun (by norm_num)

/-- Claim C6: whenever the root-finder's single-step update reports a nonzero
internal failure status, the solve aborts immediately and without retrying:
the loop, entered at any point with such a step pending, returns the stuck
failure carrying that status and the diagnostic rows accumulated up to and
including the failing pass, and the solver entry point surfaces it as a
distinguishable `solverStuck` error producing no departure or arrival
velocities and leaving the caller's out-parameters untouched. -/
theorem solver_stuck_aborts {R Epoch Tle W : Type} [LinearOrderedField R]
    (gslSet : Vec3 R → GslSolver R W)
    (gslIterate : GslSolver R W → Int × GslSolver R W)
    (convert : ConvertFn R Epoch Tle) (propagate : PropagateFn R Tle)
    (departurePosition : Vec3 R) (departureEpoch : Epoch) (arrivalPosition : Vec3 R)
    (timeOfFlight : R) (departureVelocityGuess : Vec3 R)
    (solverStatusSummary : SolverSummary R) (numberOfIterations : Int)
    (referenceTle : Tle) (mu radius absoluteTolerance relativeTolerance : R)
    (maximumIterations : Int)
    (s : GslSolver R W) (c : Int) (tr : List (TraceRow R))
    (hst : (gslIterate s).1 ≠ 0) (hs : s = gslSet departureVelocityGuess) :
    atomLoop gslIterate absoluteTolerance relativeTolerance maximumIterations s c tr
      = .error ((gslIterate s).1, tr ++ [mkTraceRow c s]) ∧
    executeAtomSolverFull gslSet gslIterate convert propagate
      departurePosition departureEpoch arrivalPosition timeOfFlight
      departureVelocityGuess solverStatusSummary numberOfIterations
      referenceTle mu radius absoluteTolerance relativeTolerance maximumIterations
      = (.error (.solverStuck (gslIterate s).1 [mkTraceRow 0 s]),
         solverStatusSummary, numberOfIterations) := by
  refine ⟨atomLoop_stuck gslIterate absoluteTolerance relativeTolerance
    maximumIterations s c tr hst, ?_⟩
  subst hs
  unfold executeAtomSolverFull
  rw [atomLoop_stuck gslIterate absoluteTolerance relativeTolerance
    maximumIterations (gslSet departureVelocityGuess) 0 [] hst]
  rfl

/-- Witness for C6: the stuck abort at a concrete run whose step stub reports
failure status 1. -/
theorem solver_stuck_aborts_witness :
    atomLoop testIterateStuck (1 : ℚ) 0 5 (testGslSet ⟨3, 4, 5⟩) 0 []
      = .error ((testIterateStuck (testGslSet ⟨3, 4, 5⟩)).1,
          [] ++ [mkTraceRow 0 (testGslSet ⟨3, 4, 5⟩)]) ∧
    executeAtomSolverFull testGslSet testIterateStuck testConvertOk testPropagateOk
      (⟨7000, 0, 0⟩ : Vec3 ℚ) () ⟨0, 7000, 0⟩ 2700 ⟨3, 4, 5⟩
      { rows := [], finalStatus := none } 0 () 1 1 1 0 5
      = (.error (.solverStuck (testIterateStuck (testGslSet ⟨3, 4, 5⟩)).1
           [mkTraceRow 0 (testGslSet ⟨3, 4, 5⟩)]),
         { rows := [], finalStatus := none }, 0) :=
  solver_stuck_aborts testGslSet testIterateStuck testConvertOk testPropagateOk
    ⟨7000, 0, 0⟩ () ⟨0, 7000, 0⟩ 2700 ⟨3, 4, 5⟩
    { rows := [], finalStatus := none } 0 () 1 1 1 0 5
    (testGslSet ⟨3, 4, 5⟩) 0 [] (by decide) rfl

/-- Claim C10: if the solve terminates with the fatal root-finder-stuck
failure, the caller-supplied `solverStatusSummary` and `numberOfIterations`
out-parameters still hold the values they had at entry: the source assigns
them only after the iteration loop exits normally, so the error path leaves
the caller's variables untouched. -/
theorem stuck_preserves_out_parameters {R Epoch Tle W : Type} [LinearOrderedField R]
    (gslSet : Vec3 R → GslSolver R W)
    (gslIterate : GslSolver R W → Int × GslSolver R W)
    (convert : ConvertFn R Epoch Tle) (propagate : PropagateFn R Tle)
    (departurePosition : Vec3 R) (departureEpoch : Epoch) (arrivalPosition : Vec3 R)
    (timeOfFlight : R) (departureVelocityGuess : Vec3 R)
    (solverStatusSummary0 : SolverSummary R) (numberOfIterations0 : Int)
    (referenceTle : Tle) (mu radius absoluteTolerance relativeTolerance : R)
    (maximumIterations : Int)
    (st : Int) (tr : List (TraceRow R))
    (summary : SolverSummary R) (numberOfIterations : Int)
    (h : executeAtomSolverFull gslSet gslIterate convert propagate
        departurePosition departureEpoch arrivalPosition timeOfFlight
        departureVelocityGuess solverStatusSummary0 numberOfIterations0
        referenceTle mu radius absoluteTolerance relativeTolerance maximumIterations
      = (.error (.solverStuck st tr), summary, numberOfIterations)) :
    summary = solverStatusSummary0 ∧ numberOfIterations = numberOfIterations0 := by
  unfold executeAtomSolverFull at h
  cases hloop : atomLoop gslIterate absoluteTolerance relativeTolerance
      maximumIterations (gslSet departureVelocityGuess) 0 [] with
  | error p =>
    obtain ⟨status, trace⟩ := p
    rw [hloop] at h
    simp only [Prod.mk.injEq] at h
    exact ⟨h.2.1.symm, h.2.2.symm⟩
  | ok q =>
    obtain ⟨s2, c2, tr2, finalStatus⟩ := q
    rw [hloop] at h
    simp only [Prod.mk.injEq] at h
    split at h
    · simp_all
    · split at h <;> simp_all

/-- Witness for C10: a stuck run entered with distinctive out-parameter values
(summary status line 42, iteration count 77) hands exactly those values back. -/
theorem stuck_preserves_out_parameters_witness :
    ({ rows := [], finalStatus := some 42 } : SolverSummary ℚ)
      = { rows := [], finalStatus := some 42 } ∧ (77 : Int) = 77 :=
  stuck_preserves_out_parameters testGslSet testIterateStuck testConvertOk testPropagateOk
    ⟨7000, 0, 0⟩ () ⟨0, 7000, 0⟩ 2700 ⟨3, 4, 5⟩ { rows := [], finalStatus := some 42 } 77
    () 1 1 1 0 5 1 [mkTraceRow 0 (testGslSet ⟨3, 4, 5⟩)]
    { rows := [], finalStatus := some 42 } 77
    (executeAtomSolverFull_stuck_run testGslSet testIterateStuck testConvertOk testPropagateOk
      ⟨7000, 0, 0⟩ () ⟨0, 7000, 0⟩ 2700 ⟨3, 4, 5⟩ { rows := [], finalStatus := some 42 } 77
      () 1 1 1 0 5 (by decide))

/-- Claim C1 (amended): `executeAtomSolver` performs no input validation and
has no `InvalidInput` rejection path. Even when the time-of-flight is
non-positive — and whatever the tolerances and the iteration budget, including
non-positive ones — the root-finder is initialized and its single-step update
is executed: a step function reporting failure status `failCode` has that
failure surfaced by the solve, which could not happen had the call been
rejected before the root-finder ran. -/
theorem no_input_validation {R Epoch Tle W : Type} [LinearOrderedField R]
    (gslSet : Vec3 R → GslSolver R W)
    (convert : ConvertFn R Epoch Tle) (propagate : PropagateFn R Tle)
    (departurePosition : Vec3 R) (departureEpoch : Epoch) (arrivalPosition : Vec3 R)
    (timeOfFlight : R) (departureVelocityGuess : Vec3 R)
    (solverStatusSummary : SolverSummary R) (numberOfIterations : Int)
    (referenceTle : Tle) (mu radius absoluteTolerance relativeTolerance : R)
    (maximumIterations : Int) (failCode : Int)
    (htof : timeOfFlight ≤ 0) (hfail : failCode ≠ 0) :
    executeAtomSolverFull gslSet (fun solver => (failCode, solver)) convert propagate
      departurePosition departureEpoch arrivalPosition timeOfFlight
      departureVelocityGuess solverStatusSummary numberOfIterations
      referenceTle mu radius absoluteTolerance relativeTolerance maximumIterations
      = (.error (.solverStuck failCode [mkTraceRow 0 (gslSet departureVelocityGuess)]),
         solverStatusSummary, numberOfIterations) :=
  executeAtomSolverFull_stuck_run gslSet (fun solver => (failCode, solver)) convert propagate
    departurePosition departureEpoch arrivalPosition timeOfFlight
    departureVelocityGuess solverStatusSummary numberOfIterations
    referenceTle mu radius absoluteTolerance relativeTolerance maximumIterations hfail

/-- Witness for C1 (amended) at a concrete call with time-of-flight -1. -/
theorem no_input_validation_witness :
    executeAtomSolverFull testGslSet (fun solver => ((1 : Int), solver))
      testConvertOk testPropagateOk
      (⟨7000, 0, 0⟩ : Vec3 ℚ) () ⟨0, 7000, 0⟩ (-1) ⟨3, 4, 5⟩
      { rows := [], finalStatus := none } 0 () 1 1 1 0 100
      = (.error (.solverStuck 1 [mkTraceRow 0 (testGslSet ⟨3, 4, 5⟩)]),
         { rows := [], finalStatus := none }, 0) :=
  no_input_validation testGslSet testConvertOk testPropagateOk
    ⟨7000, 0, 0⟩ () ⟨0, 7000, 0⟩ (-1) ⟨3, 4, 5⟩ { rows := [], finalStatus := none } 0
    () 1 1 1 0 100 1 (by norm_num) (by norm_num)

/-- Counterexample to claim C1: a call with non-positive time-of-flight (-1),
a non-positive absolute tolerance (-1) and a non-positive iteration budget (0)
is not rejected as `InvalidInput`: the solve runs its loop and returns an
ordinary result whose arrival velocity ⟨9, 9, 9⟩ is the propagation stub's
output, showing that the root-finder and the propagation adapter were both
exercised rather than the call being rejected beforehand. -/
theorem no_invalid_input_rejection_at_concrete_input :
    executeAtomSolverFull testGslSet testIterateId testConvertOk testPropagateOk
      (⟨7000, 0, 0⟩ : Vec3 ℚ) () ⟨0, 7000, 0⟩ (-1) ⟨3, 4, 5⟩
      { rows := [], finalStatus := none } 0 () 1 1 (-1) 0 0
      = (.ok (⟨3, 4, 5⟩, ⟨9, 9, 9⟩),
         { rows := [mkTraceRow 0 (testGslSet ⟨3, 4, 5⟩)], finalStatus := some GSL_CONTINUE },
         0) := by
  have hdelta : gslMultirootTestDelta (testIterateId (testGslSet (⟨3, 4, 5⟩ : Vec3 ℚ))).2.dx
      (testIterateId (testGslSet (⟨3, 4, 5⟩ : Vec3 ℚ))).2.x (-1 : ℚ) 0 = GSL_CONTINUE := by
    norm_num [gslMultirootTestDelta, testGslSet, testIterateId]
  have hrun := atomLoop_one_pass testIterateId (-1 : ℚ) 0 0 (testGslSet ⟨3, 4, 5⟩) 0 [] rfl
    (by norm_num)
  rw [hdelta] at hrun
  exact executeAtomSolverFull_ok_run testGslSet testIterateId testConvertOk testPropagateOk
    ⟨7000, 0, 0⟩ () ⟨0, 7000, 0⟩ (-1) ⟨3, 4, 5⟩ { rows := [], finalStatus := none } 0
    () 1 1 (-1) 0 0 (testGslSet ⟨3, 4, 5⟩) 1 [mkTraceRow 0 (testGslSet ⟨3, 4, 5⟩)]
    GSL_CONTINUE () ⟨⟨7, 8, 9⟩, ⟨9, 9, 9⟩⟩ hrun rfl rfl

/-- Claim C2 (amended): for every run whose iteration loop completes — the
summary's final status line was written, which the solver-stuck abort never
does — the reported `numberOfIterations` is the loop counter minus one. For a
positive budget it is always `>= 0` and strictly below `maximumIterations`;
in particular on a `Converged` outcome it is `>= 0` and
`< maximumIterations`, and on a `NonConvergence` outcome (final status
`GSL_CONTINUE`) it equals `maximumIterations - 1`, not `maximumIterations`. -/
theorem iteration_accounting {R Epoch Tle W : Type} [LinearOrderedField R]
    (gslSet : Vec3 R → GslSolver R W)
    (gslIterate : GslSolver R W → Int × GslSolver R W)
    (convert : ConvertFn R Epoch Tle) (propagate : PropagateFn R Tle)
    (departurePosition : Vec3 R) (departureEpoch : Epoch) (arrivalPosition : Vec3 R)
    (timeOfFlight : R) (departureVelocityGuess : Vec3 R)
    (numberOfIterations0 : Int) (referenceTle : Tle)
    (mu radius absoluteTolerance relativeTolerance : R) (maximumIterations : Int)
    (result : Except (AtomError R) (Vec3 R × Vec3 R))
    (summary : SolverSummary R) (numberOfIterations : Int) (st : Int)
    (h : executeAtomSolverFull gslSet gslIterate convert propagate
        departurePosition departureEpoch arrivalPosition timeOfFlight
        departureVelocityGuess { rows := [], finalStatus := none }
        numberOfIterations0 referenceTle mu radius absoluteTolerance
        relativeTolerance maximumIterations
      = (result, summary, numberOfIterations))
    (hm : 1 ≤ maximumIterations) (hst : summary.finalStatus = some st) :
    0 ≤ numberOfIterations ∧ numberOfIterations < maximumIterations ∧
    (st = GSL_CONTINUE → numberOfIterations = maximumIterations - 1) := by
  unfold executeAtomSolverFull at h
  cases hloop : atomLoop gslIterate absoluteTolerance relativeTolerance
      maximumIterations (gslSet departureVelocityGuess) 0 [] with
  | error p =>
    obtain ⟨status, trace⟩ := p
    rw [hloop] at h
    simp only [Prod.mk.injEq] at h
    obtain ⟨-, hsum, -⟩ := h
    rw [← hsum] at hst
    simp at hst
  | ok q =>
    obtain ⟨s2, c2, tr2, finalStatus⟩ := q
    rw [hloop] at h
    obtain ⟨h1, -, -, h4, h5, -⟩ := atomLoop_ok_spec gslIterate absoluteTolerance
      relativeTolerance maximumIterations (gslSet departureVelocityGuess) 0 []
      s2 c2 tr2 finalStatus hloop
    simp only [Prod.mk.injEq] at h
    split at h
    all_goals try split at h
    all_goals obtain ⟨-, rfl, rfl⟩ := h
    all_goals simp only [Option.some.injEq] at hst
    all_goals have hc2 := h5 (by omega)
    all_goals refine ⟨by omega, by omega, fun hcont => ?_⟩
    all_goals have hcap := h4 (by rw [hst]; exact hcont)
    all_goals omega

/-- Witness for C2 (amended) at the concrete converged run. -/
theorem iteration_accounting_witness :
    (0 : Int) ≤ 0 ∧ (0 : Int) < 5 ∧ (GSL_SUCCESS = GSL_CONTINUE → (0 : Int) = 5 - 1) :=
  iteration_accounting testGslSet testIterateId testConvertOk testPropagateOk
    ⟨7000, 0, 0⟩ () ⟨0, 7000, 0⟩ 2700 ⟨3, 4, 5⟩ 0 () 1 1 1 0 5
    (.ok (⟨3, 4, 5⟩, ⟨9, 9, 9⟩))
    { rows := [mkTraceRow 0 (testGslSet ⟨3, 4, 5⟩)], finalStatus := some GSL_SUCCESS }
    0 GSL_SUCCESS testConvergedFullRun (by norm_num) rfl

/-- Counterexample to claim C2: with `maximumIterations = 1` and a run that
exhausts the budget without converging (final status `GSL_CONTINUE`), the
reported iteration count is `0 = maximumIterations - 1`, not
`maximumIterations = 1` as the claim states for the NonConvergence outcome. -/
theorem nonconvergence_count_at_concrete_input :
    (executeAtomSolverFull testGslSet testIterateId testConvertOk testPropagateOk
      (⟨7000, 0, 0⟩ : Vec3 ℚ) () ⟨0, 7000, 0⟩ 2700 ⟨3, 4, 5⟩
      { rows := [], finalStatus := none } 0 () 1 1 0 0 1
      = (.ok (⟨3, 4, 5⟩, ⟨9, 9, 9⟩),
         { rows := [mkTraceRow 0 (testGslSet ⟨3, 4, 5⟩)], finalStatus := some GSL_CONTINUE },
         0)) ∧ (0 : Int) ≠ 1 := by
  have hdelta : gslMultirootTestDelta (testIterateId (testGslSet (⟨3, 4, 5⟩ : Vec3 ℚ))).2.dx
      (testIterateId (testGslSet (⟨3, 4, 5⟩ : Vec3 ℚ))).2.x (0 : ℚ) 0 = GSL_CONTINUE := by
    norm_num [gslMultirootTestDelta, testGslSet, testIterateId]
  have hrun := atomLoop_one_pass testIterateId (0 : ℚ) 0 1 (testGslSet ⟨3, 4, 5⟩) 0 [] rfl
    (by norm_num)
  rw [hdelta] at hrun
  refine ⟨?_, by norm_num⟩
  exact executeAtomSolverFull_ok_run testGslSet testIterateId testConvertOk testPropagateOk
    ⟨7000, 0, 0⟩ () ⟨0, 7000, 0⟩ 2700 ⟨3, 4, 5⟩ { rows := [], finalStatus := none } 0
    () 1 1 0 0 1 (testGslSet ⟨3, 4, 5⟩) 1 [mkTraceRow 0 (testGslSet ⟨3, 4, 5⟩)]
    GSL_CONTINUE () ⟨⟨7, 8, 9⟩, ⟨9, 9, 9⟩⟩ hrun rfl rfl

/-- Claim C7: on every outcome whose loop completed (Converged and Exhausted
alike), the diagnostic trace holds exactly `numberOfIterations + 1` rows — the
seed row plus one row per completed iteration — and its first row records the
freshly-seeded solver state, so with a seeding function that, like
`gsl_multiroot_fsolver_set`, installs the guess as the iterate, the first row
reflects the initial velocity guess before any update. -/
theorem trace_completeness {R Epoch Tle W : Type} [LinearOrderedField R]
    (gslSet : Vec3 R → GslSolver R W)
    (gslIterate : GslSolver R W → Int × GslSolver R W)
    (convert : ConvertFn R Epoch Tle) (propagate : PropagateFn R Tle)
    (departurePosition : Vec3 R) (departureEpoch : Epoch) (arrivalPosition : Vec3 R)
    (timeOfFlight : R) (departureVelocityGuess : Vec3 R)
    (numberOfIterations0 : Int) (referenceTle : Tle)
    (mu radius absoluteTolerance relativeTolerance : R) (maximumIterations : Int)
    (result : Except (AtomError R) (Vec3 R × Vec3 R))
    (summary : SolverSummary R) (numberOfIterations : Int) (st : Int)
    (hseed : (gslSet departureVelocityGuess).x = departureVelocityGuess)
    (h : executeAtomSolverFull gslSet gslIterate convert propagate
        departurePosition departureEpoch arrivalPosition timeOfFlight
        departureVelocityGuess { rows := [], finalStatus := none }
        numberOfIterations0 referenceTle mu radius absoluteTolerance
        relativeTolerance maximumIterations
      = (result, summary, numberOfIterations))
    (hst : summary.finalStatus = some st) :
    (summary.rows.length : Int) = numberOfIterations + 1 ∧
    summary.rows.head? = some { iteration := 0, iterate := departureVelocityGuess,
                                step := (gslSet departureVelocityGuess).dx,
                                residual := (gslSet departureVelocityGuess).f } := by
  unfold executeAtomSolverFull at h
  cases hloop : atomLoop gslIterate absoluteTolerance relativeTolerance
      maximumIterations (gslSet departureVelocityGuess) 0 [] with
  | error p =>
    obtain ⟨status, trace⟩ := p
    rw [hloop] at h
    simp only [Prod.mk.injEq] at h
    obtain ⟨-, hsum, -⟩ := h
    rw [← hsum] at hst
    simp at hst
  | ok q =>
    obtain ⟨s2, c2, tr2, finalStatus⟩ := q
    rw [hloop] at h
    obtain ⟨-, h2, h3, -, -, -⟩ := atomLoop_ok_spec gslIterate absoluteTolerance
      relativeTolerance maximumIterations (gslSet departureVelocityGuess) 0 []
      s2 c2 tr2 finalStatus hloop
    simp only [Prod.mk.injEq] at h
    split at h
    all_goals try split at h
    all_goals obtain ⟨-, rfl, rfl⟩ := h
    all_goals obtain ⟨rest, hrest⟩ := h3
    all_goals simp only [List.length_nil, Nat.cast_zero, zero_add] at h2
    all_goals refine ⟨by push_cast; omega, ?_⟩
    all_goals show tr2.head? = _
    all_goals rw [hrest]
    all_goals simp [mkTraceRow, hseed]

/-- Witness for C7 at the concrete converged run: one reported iteration step
less one, one seed row, first row holding the guess ⟨3, 4, 5⟩. -/
theorem trace_completeness_witness :
    (([mkTraceRow 0 (testGslSet (⟨3, 4, 5⟩ : Vec3 ℚ))].length : Int) = 0 + 1) ∧
    ([mkTraceRow 0 (testGslSet (⟨3, 4, 5⟩ : Vec3 ℚ))].head?
      = some { iteration := 0, iterate := ⟨3, 4, 5⟩,
               step := (testGslSet ⟨3, 4, 5⟩).dx, residual := (testGslSet ⟨3, 4, 5⟩).f }) :=
  trace_completeness testGslSet testIterateId testConvertOk testPropagateOk
    ⟨7000, 0, 0⟩ () ⟨0, 7000, 0⟩ 2700 ⟨3, 4, 5⟩ 0 () 1 1 1 0 5
    (.ok (⟨3, 4, 5⟩, ⟨9, 9, 9⟩))
    { rows := [mkTraceRow 0 (testGslSet ⟨3, 4, 5⟩)], finalStatus := some GSL_SUCCESS }
    0 GSL_SUCCESS rfl testConvergedFullRun rfl

/-- Claim C5 (amended): for every candidate iterate on which either adapter
call fails, `computeAtomResiduals` propagates that failure outward — the
evaluation aborts with the failure (the C++ exception escaping the callback)
and never returns a success code paired with a degenerate residual; dually,
any value it does return carries the code `GSL_SUCCESS` and certifies that
both adapter calls succeeded. It has no failure-returning path, so no GSL
failure code is ever handed to the root-finder. -/
theorem residual_failure_propagates {R Epoch Tle : Type} [LinearOrderedField R]
    (convert : ConvertFn R Epoch Tle) (propagate : PropagateFn R Tle)
    (parameters : AtomParameters R Epoch Tle) (candidateVelocity : Vec3 R) :
    (∀ e, convert { pos := parameters.departurePosition, vel := candidateVelocity }
        parameters.departureEpoch parameters.referenceTle
        parameters.earthGravitationalParameter parameters.earthMeanRadius
        parameters.absoluteTolerance parameters.relativeTolerance
        parameters.maximumIterations = .error e →
      computeAtomResiduals convert propagate parameters candidateVelocity = .error e) ∧
    (∀ departureTle e, convert { pos := parameters.departurePosition, vel := candidateVelocity }
        parameters.departureEpoch parameters.referenceTle
        parameters.earthGravitationalParameter parameters.earthMeanRadius
        parameters.absoluteTolerance parameters.relativeTolerance
        parameters.maximumIterations = .ok departureTle →
      propagate departureTle parameters.timeOfFlight = .error e →
      computeAtomResiduals convert propagate parameters candidateVelocity = .error e) ∧
    (∀ code residuals,
      computeAtomResiduals convert propagate parameters candidateVelocity
        = .ok (code, residuals) →
      code = GSL_SUCCESS ∧
      ∃ departureTle arrivalState,
        convert { pos := parameters.departurePosition, vel := candidateVelocity }
          parameters.departureEpoch parameters.referenceTle
          parameters.earthGravitationalParameter parameters.earthMeanRadius
          parameters.absoluteTolerance parameters.relativeTolerance
          parameters.maximumIterations = .ok departureTle ∧
        propagate departureTle parameters.timeOfFlight = .ok arrivalState) := by
  refine ⟨?_, ?_, ?_⟩
  · intro e he
    simp only [computeAtomResiduals]
    rw [he]
  · intro departureTle e hc hp
    simp only [computeAtomResiduals, hc]
    rw [hp]
  · intro code residuals hr
    simp only [computeAtomResiduals] at hr
    cases hc : convert { pos := parameters.departurePosition, vel := candidateVelocity }
        parameters.departureEpoch parameters.referenceTle
        parameters.earthGravitationalParameter parameters.earthMeanRadius
        parameters.absoluteTolerance parameters.relativeTolerance
        parameters.maximumIterations with
    | error e =>
      simp only [hc] at hr
      simp at hr
    | ok departureTle =>
      simp only [hc] at hr
      cases hp : propagate departureTle parameters.timeOfFlight with
      | error e =>
        simp only [hp] at hr
        simp at hr
      | ok arrivalState =>
        simp only [hp, Except.ok.injEq, Prod.mk.injEq] at hr
        exact ⟨hr.1.symm, departureTle, arrivalState, rfl, hp⟩

/-- Witness for C5 (amended): the failure-propagation theorem applied to the
always-failing conversion stub at a concrete candidate velocity. -/
theorem residual_failure_propagates_witness :
    computeAtomResiduals testConvertFail testPropagateOk testAtomParameters
      (⟨3, 4, 5⟩ : Vec3 ℚ) = .error "conversion failed" :=
  (residual_failure_propagates testConvertFail testPropagateOk testAtomParameters
    ⟨3, 4, 5⟩).1 "conversion failed" rfl

/-- Counterexample to claim C5: when the conversion adapter fails for a
candidate iterate, `computeAtomResiduals` does not return a failure code to
the root-finder — it returns nothing at all (the C++ function's only return
statement is `return GSL_SUCCESS;`, failures escaping as exceptions): the
evaluation yields the error, and its returned-value channel is empty. -/
theorem residual_failure_not_returned_at_concrete_input :
    computeAtomResiduals testConvertFail testPropagateOk testAtomParameters
      (⟨3, 4, 5⟩ : Vec3 ℚ) = .error "conversion failed" ∧
    (computeAtomResiduals testConvertFail testPropagateOk testAtomParameters
      (⟨3, 4, 5⟩ : Vec3 ℚ)).toOption = none :=
  ⟨rfl, rfl⟩
